import Mathlib

/-!
Verification of the lazy-expression DSL binding layer
(`src/py-polars/src/lazy/dsl.rs`) of this repository.

The file first embeds the data model of the expression core.  The core
expression type lives in the `polars` crate, which is not part of the
sources here; it is modelled from the specification (section 3 of the
spec).  The functions of `dsl.rs` are then translated from the source
directly, and the claims about them are proved or refuted below.
-/

namespace PolarsLazy

/-- Modelled from the spec: the closed `Operator` enumeration of the
expression core (`polars::lazy::dsl::Operator`, not under `src/`). -/
inductive Operator : Type
  | Plus | Minus | Multiply | Divide
  | Eq | NotEq | Gt | GtEq | Lt | LtEq
  | And | Or | Not
  deriving DecidableEq, Repr

/-- Modelled from the spec: typed scalar literal values.  `float64` is
modelled by `Rat`; no floating-point arithmetic occurs in any claim, the
value is only stored in the node. -/
inductive LiteralValue : Type
  | int (i : Int)
  | float (f : Rat)
  | bool (b : Bool)
  | str (s : String)
  deriving DecidableEq, Repr

/-- Modelled from the spec: aggregation kinds of the `Aggregate` node. -/
inductive AggKind : Type
  | Min | Max | Mean | Median | Sum | NUnique | First | Last
  | Quantile (q : Rat)
  | Groups
  deriving DecidableEq, Repr

/-- Modelled from the spec: kinds of the `Unary` node. -/
inductive UnaryKind : Type
  | Not | IsNull | IsNotNull
  deriving DecidableEq, Repr

/-- Modelled from the spec: null-filling strategies
(`polars::prelude::FillNoneStrategy`, not under `src/`). -/
inductive FillNoneStrategy : Type
  | Backward | Forward | Min | Max | Mean
  deriving DecidableEq, Repr

/-- The scalar type tags of `str_to_arrow_type` in `dsl.rs`
(`ArrowDataType` variants actually produced there). -/
inductive ArrowDataType : Type
  | UInt8 | UInt16 | UInt32 | UInt64
  | Int8 | Int16 | Int32 | Int64
  | Float32 | Float64 | Boolean | Utf8
  deriving DecidableEq, Repr

/-- Modelled from the spec: evaluation errors surfaced by the column
library (`PolarsError`, not under `src/`).  `dataTypeMisMatch` is the
typed error returned when a string operation meets a non-string column. -/
inductive PolarsError : Type
  | dataTypeMisMatch
  | other (msg : String)
  deriving DecidableEq, Repr

/-- Modelled from the spec: a typed, nullable column ("Series").  The
spec's full width catalogue (integer 8/16/32/64 and so on) is collapsed
to one representative per runtime kind; the claims only distinguish
string-typed columns from every other kind. -/
inductive Series : Type
  | intS (vals : List (Option Int))
  | floatS (vals : List (Option Rat))
  | boolS (vals : List (Option Bool))
  | strS (vals : List (Option String))
  deriving DecidableEq, Repr

/-- Whether the runtime element type of a series is string. -/
def Series.isStr : Series → Bool
  | .strS _ => true
  | _ => false

/-- Modelled from the spec: `Series::utf8` of the column library — yields
the string values when the runtime type is string, and a type-mismatch
error otherwise. -/
def Series.utf8 : Series → Except PolarsError (List (Option String))
  | .strS vals => .ok vals
  | _ => .error .dataTypeMisMatch

/-- Modelled from the spec: the recursive, immutable expression node
(`polars::lazy::dsl::Expr`, not under `src/`), variants as in section 3
of the spec.  The `apply` variant stores the opaque column-to-column
transform as a function value. -/
inductive Expr : Type
  | column (name : String)
  | lit (v : LiteralValue)
  | binaryOp (left : Expr) (op : Operator) (right : Expr)
  | unary (kind : UnaryKind) (operand : Expr)
  | alias (inner : Expr) (name : String)
  | cast (inner : Expr) (targetType : ArrowDataType)
  | agg (kind : AggKind) (inner : Expr)
  | sort (inner : Expr) (descending : Bool)
  | shift (inner : Expr) (periods : Int)
  | fillNull (inner : Expr) (strategy : FillNoneStrategy)
  | ternary (predicate ifTrue ifFalse : Expr)
  | apply (inner : Expr) (function : Series → Except PolarsError Series)

/-- Modelled from the spec: `dsl::binary_expr`, the single constructor of
`BinaryOp` nodes. -/
def dslBinaryExpr (left : Expr) (op : Operator) (right : Expr) : Expr :=
  Expr.binaryOp left op right

/-- Modelled from the spec: `dsl::ternary_expr`, the constructor of
`Ternary` nodes. -/
def dslTernaryExpr (predicate ifTrue ifFalse : Expr) : Expr :=
  Expr.ternary predicate ifTrue ifFalse

/-- Modelled from the spec: `dsl::col`. -/
def dslCol (name : String) : Expr := Expr.column name

/-- Modelled from the spec: the comparison shorthands of the core
`Expr` type each wrap `binary_expr` with the matching operator
(spec 4.2).  `Expr::eq`. -/
def Expr.eqOp (self other : Expr) : Expr := dslBinaryExpr self .Eq other

/-- Modelled from the spec: `Expr::neq`. -/
def Expr.neqOp (self other : Expr) : Expr := dslBinaryExpr self .NotEq other

/-- Modelled from the spec: `Expr::gt`. -/
def Expr.gtOp (self other : Expr) : Expr := dslBinaryExpr self .Gt other

/-- Modelled from the spec: `Expr::gt_eq`. -/
def Expr.gtEqOp (self other : Expr) : Expr := dslBinaryExpr self .GtEq other

/-- Modelled from the spec: `Expr::lt`. -/
def Expr.ltOp (self other : Expr) : Expr := dslBinaryExpr self .Lt other

/-- Modelled from the spec: `Expr::lt_eq`. -/
def Expr.ltEqOp (self other : Expr) : Expr := dslBinaryExpr self .LtEq other

/-- Outcome of a builder call that may abort the process: Rust `panic!`
and `todo!` are modelled as the `panicked` outcome, carrying the panic
message, as opposed to a typed error value returned to the caller. -/
inductive PanicOr (α : Type) : Type
  | ok (a : α)
  | panicked (msg : String)
  deriving DecidableEq, Repr

/-- Modelled from the spec: anchored match of a regular-expression
pattern against a prefix of the text.  The regex engine used by the
column library is an external crate, not under `src/`; the spec only
requires that the pattern is "treated as a regular expression", and its
examples use literal characters and the `.` wildcard, so exactly that
dialect is modelled: a pattern character matches one text character,
`.` matching any character. -/
def matchHere : List Char → List Char → Bool
  | [], _ => true
  | _ :: _, [] => false
  | p :: ps, c :: cs => (p == '.' || p == c) && matchHere ps cs

/-- Whether the pattern matches at some position of the text
(unanchored containment, as regex `contains` does). -/
def searchAux (pat : List Char) : List Char → Bool
  | [] => matchHere pat []
  | c :: cs => matchHere pat (c :: cs) || searchAux pat cs

/-- Modelled from the spec: per-element semantics of the column
library's `contains` — true when the pattern, read as a regular
expression, matches anywhere in the element. -/
def containsMatch (pat s : String) : Bool :=
  searchAux pat.data s.data

/-- Modelled from the spec: substitute the first regex match
(`replace`).  The fuel argument bounds the scan by the text length. -/
def replaceFirstAux (pat rep : List Char) : Nat → List Char → List Char
  | 0, text => if matchHere pat text then rep ++ text.drop pat.length else text
  | fuel + 1, text =>
    if matchHere pat text then rep ++ text.drop pat.length
    else
      match text with
      | [] => []
      | c :: cs => c :: replaceFirstAux pat rep fuel cs

/-- Modelled from the spec: substitute every regex match
(`replace_all`).  The fuel argument bounds the scan by the text
length. -/
def replaceAllAux (pat rep : List Char) : Nat → List Char → List Char
  | 0, text => text
  | fuel + 1, text =>
    if pat.length ≠ 0 && matchHere pat text then
      rep ++ replaceAllAux pat rep fuel (text.drop pat.length)
    else
      match text with
      | [] => []
      | c :: cs => c :: replaceAllAux pat rep fuel cs

/-- Modelled from the spec: `StringChunked::replace` — first-match
regex substitution per element, null propagating. -/
def chunkedReplace (pat rep : String) (vals : List (Option String)) :
    List (Option String) :=
  vals.map (Option.map fun s =>
    String.mk (replaceFirstAux pat.data rep.data s.length s.data))

/-- Modelled from the spec: `StringChunked::replace_all` — all-matches
regex substitution per element, null propagating. -/
def chunkedReplaceAll (pat rep : String) (vals : List (Option String)) :
    List (Option String) :=
  vals.map (Option.map fun s =>
    String.mk (replaceAllAux pat.data rep.data s.length s.data))

/-- Modelled from the spec: `StringChunked::str_lengths` — per-element
character lengths, null propagating. -/
def chunkedStrLengths (vals : List (Option String)) : List (Option Int) :=
  vals.map (Option.map fun s => (s.length : Int))

/-- Modelled from the spec: `StringChunked::contains` — per-element
regex containment producing booleans, null propagating. -/
def chunkedContains (pat : String) (vals : List (Option String)) :
    List (Option Bool) :=
  vals.map (Option.map fun s => containsMatch pat s)

/-!
Translation of `src/py-polars/src/lazy/dsl.rs`.  `PyExpr` is a
`repr(transparent)` wrapper around the core expression type, so it is
identified with `Expr` here; its methods take the receiver by shared
reference and clone it, which in this pure embedding is plain value
passing.  `PyResult` is modelled by `Except String`; a Rust panic
(`panic!`, `todo!`) by `PanicOr.panicked`.
-/

/-- From `dsl.rs`: `PyNumberProtocol::__add__`. -/
def pyAdd (lhs rhs : Expr) : Except String Expr :=
  .ok (dslBinaryExpr lhs .Plus rhs)

/-- From `dsl.rs`: `PyNumberProtocol::__sub__`. -/
def pySub (lhs rhs : Expr) : Except String Expr :=
  .ok (dslBinaryExpr lhs .Minus rhs)

/-- From `dsl.rs`: `PyNumberProtocol::__mul__`. -/
def pyMul (lhs rhs : Expr) : Except String Expr :=
  .ok (dslBinaryExpr lhs .Multiply rhs)

/-- From `dsl.rs`: `PyNumberProtocol::__truediv__`. -/
def pyTruediv (lhs rhs : Expr) : Except String Expr :=
  .ok (dslBinaryExpr lhs .Divide rhs)

namespace PyExpr

/-- From `dsl.rs`: `PyExpr::eq`. -/
def eq (self other : Expr) : Expr := self.eqOp other

/-- From `dsl.rs`: `PyExpr::neq`. -/
def neq (self other : Expr) : Expr := self.neqOp other

/-- From `dsl.rs`: `PyExpr::gt`. -/
def gt (self other : Expr) : Expr := self.gtOp other

/-- From `dsl.rs`: `PyExpr::gt_eq`. -/
def gt_eq (self other : Expr) : Expr := self.gtEqOp other

/-- From `dsl.rs`: `PyExpr::lt_eq`. -/
def lt_eq (self other : Expr) : Expr := self.ltEqOp other

/-- From `dsl.rs`: `PyExpr::lt`. -/
def lt (self other : Expr) : Expr := self.ltOp other

/-- From `dsl.rs`: `PyExpr::alias` (core `Expr::alias` builds the
`Alias` node, spec 4.2). -/
def alias_ (self : Expr) (name : String) : Expr := Expr.alias self name

/-- From `dsl.rs`: `PyExpr::is_not` (core `Expr::not` wraps `Unary`). -/
def is_not (self : Expr) : Expr := Expr.unary .Not self

/-- From `dsl.rs`: `PyExpr::is_null`. -/
def is_null (self : Expr) : Expr := Expr.unary .IsNull self

/-- From `dsl.rs`: `PyExpr::is_not_null`. -/
def is_not_null (self : Expr) : Expr := Expr.unary .IsNotNull self

/-- From `dsl.rs`: `PyExpr::agg_min` (each aggregation shorthand wraps
`Aggregate` with the matching kind, spec 4.2). -/
def agg_min (self : Expr) : Expr := Expr.agg .Min self

/-- From `dsl.rs`: `PyExpr::agg_max`. -/
def agg_max (self : Expr) : Expr := Expr.agg .Max self

/-- From `dsl.rs`: `PyExpr::agg_mean`. -/
def agg_mean (self : Expr) : Expr := Expr.agg .Mean self

/-- From `dsl.rs`: `PyExpr::agg_median`. -/
def agg_median (self : Expr) : Expr := Expr.agg .Median self

/-- From `dsl.rs`: `PyExpr::agg_sum`. -/
def agg_sum (self : Expr) : Expr := Expr.agg .Sum self

/-- From `dsl.rs`: `PyExpr::agg_n_unique`. -/
def agg_n_unique (self : Expr) : Expr := Expr.agg .NUnique self

/-- From `dsl.rs`: `PyExpr::agg_first`. -/
def agg_first (self : Expr) : Expr := Expr.agg .First self

/-- From `dsl.rs`: `PyExpr::agg_last`. -/
def agg_last (self : Expr) : Expr := Expr.agg .Last self

/-- From `dsl.rs`: `PyExpr::agg_quantile`.  The source passes the
quantile straight to the core constructor; no range check occurs and
the return type has no error channel. -/
def agg_quantile (self : Expr) (quantile : Rat) : Expr :=
  Expr.agg (.Quantile quantile) self

/-- From `dsl.rs`: `PyExpr::agg_groups`. -/
def agg_groups (self : Expr) : Expr := Expr.agg .Groups self

/-- From `dsl.rs`: `PyExpr::sort`. -/
def sort (self : Expr) (reverse : Bool) : Expr := Expr.sort self reverse

/-- From `dsl.rs`: `PyExpr::shift`. -/
def shift (self : Expr) (periods : Int) : Expr := Expr.shift self periods

/-- From `dsl.rs`: `PyExpr::fill_none` — maps the five recognized
strategy strings and otherwise returns
`PyPolarsEr::Other(format!("Strategy {} not supported", s))`. -/
def fill_none (self : Expr) (strategy : String) : Except String Expr :=
  match strategy with
  | "backward" => .ok (Expr.fillNull self .Backward)
  | "forward" => .ok (Expr.fillNull self .Forward)
  | "min" => .ok (Expr.fillNull self .Min)
  | "max" => .ok (Expr.fillNull self .Max)
  | "mean" => .ok (Expr.fillNull self .Mean)
  | s => .error ("Strategy " ++ s ++ " not supported")

/-- From `dsl.rs`: `PyExpr::max` (core shorthand wraps `Aggregate`,
spec 4.2). -/
def max (self : Expr) : Expr := Expr.agg .Max self

/-- From `dsl.rs`: `PyExpr::min`. -/
def min (self : Expr) : Expr := Expr.agg .Min self

/-- From `dsl.rs`: `PyExpr::sum`. -/
def sum (self : Expr) : Expr := Expr.agg .Sum self

/-- From `dsl.rs`: `PyExpr::mean`. -/
def mean (self : Expr) : Expr := Expr.agg .Mean self

/-- From `dsl.rs`: `PyExpr::median`. -/
def median (self : Expr) : Expr := Expr.agg .Median self

/-- From `dsl.rs`: `PyExpr::quantile`.  As with `agg_quantile`, the
value is passed straight through: no validation, no error channel. -/
def quantile (self : Expr) (q : Rat) : Expr :=
  Expr.agg (.Quantile q) self

end PyExpr

/-- From `dsl.rs`: the closure stored by `PyExpr::str_lengths` —
`s.utf8()?` then per-element lengths. -/
def strLengthsFn (s : Series) : Except PolarsError Series := do
  let ca ← s.utf8
  return Series.intS (chunkedStrLengths ca)

/-- From `dsl.rs`: the closure stored by `PyExpr::str_replace`. -/
def strReplaceFn (pat val : String) (s : Series) :
    Except PolarsError Series := do
  let ca ← s.utf8
  return Series.strS (chunkedReplace pat val ca)

/-- From `dsl.rs`: the closure stored by `PyExpr::str_replace_all`. -/
def strReplaceAllFn (pat val : String) (s : Series) :
    Except PolarsError Series := do
  let ca ← s.utf8
  return Series.strS (chunkedReplaceAll pat val ca)

/-- From `dsl.rs`: the closure stored by `PyExpr::str_contains`. -/
def strContainsFn (pat : String) (s : Series) :
    Except PolarsError Series := do
  let ca ← s.utf8
  return Series.boolS (chunkedContains pat ca)

namespace PyExpr

/-- From `dsl.rs`: `PyExpr::str_lengths` — wraps `apply` around the
stored closure. -/
def str_lengths (self : Expr) : Expr := Expr.apply self strLengthsFn

/-- From `dsl.rs`: `PyExpr::str_replace`. -/
def str_replace (self : Expr) (pat val : String) : Expr :=
  Expr.apply self (strReplaceFn pat val)

/-- From `dsl.rs`: `PyExpr::str_replace_all`. -/
def str_replace_all (self : Expr) (pat val : String) : Expr :=
  Expr.apply self (strReplaceAllFn pat val)

/-- From `dsl.rs`: `PyExpr::str_contains`. -/
def str_contains (self : Expr) (pat : String) : Expr :=
  Expr.apply self (strContainsFn pat)

end PyExpr

/-- From `dsl.rs`: `str_to_arrow_type` — the twelve recognized scalar
type names; any other name reaches `todo!()`, which panics with the
message "not yet implemented". -/
def str_to_arrow_type (s : String) : PanicOr ArrowDataType :=
  match s with
  | "u8" => .ok .UInt8
  | "u16" => .ok .UInt16
  | "u32" => .ok .UInt32
  | "u64" => .ok .UInt64
  | "i8" => .ok .Int8
  | "i16" => .ok .Int16
  | "i32" => .ok .Int32
  | "i64" => .ok .Int64
  | "f32" => .ok .Float32
  | "f64" => .ok .Float64
  | "bool" => .ok .Boolean
  | "utf8" => .ok .Utf8
  | _ => .panicked "not yet implemented"

/-- From `dsl.rs`: `PyExpr::cast` — converts the type name via
`str_to_arrow_type` (panicking on unknown names) and builds the `Cast`
node. -/
def PyExpr.castBuilder (self : Expr) (dataType : String) : PanicOr Expr :=
  match str_to_arrow_type dataType with
  | .ok dt => .ok (Expr.cast self dt)
  | .panicked m => .panicked m

/-- From `dsl.rs`: the `When` builder — holds only the predicate. -/
structure When : Type where
  predicate : Expr

/-- From `dsl.rs`: the `WhenThen` builder — predicate and then-branch;
still not an expression. -/
structure WhenThen : Type where
  predicate : Expr
  then_ : Expr

/-- From `dsl.rs`: `When::then`. -/
def When.then (self : When) (expr : Expr) : WhenThen :=
  { predicate := self.predicate, then_ := expr }

/-- From `dsl.rs`: `WhenThen::otherwise` — the only completion,
yielding the `Ternary` node. -/
def WhenThen.otherwise (self : WhenThen) (expr : Expr) : Expr :=
  dslTernaryExpr self.predicate self.then_ expr

/-- From `dsl.rs`: the free function `when`. -/
def when (predicate : Expr) : When := { predicate := predicate }

/-- From `dsl.rs`: the free function `col`. -/
def col (name : String) : Expr := dslCol name

/-- Modelled from the spec: `Operator::from(u8)` lives in the `polars`
crate, not under `src/`.  Spec 4.1: a total mapping from a compact
integer code to an `Operator` variant, failing fast with a defined
error on an out-of-range code.  The codes follow the spec's enumeration
order of the thirteen operators. -/
def operatorFromCode (code : Nat) : Except String Operator :=
  match code with
  | 0 => .ok .Plus
  | 1 => .ok .Minus
  | 2 => .ok .Multiply
  | 3 => .ok .Divide
  | 4 => .ok .Eq
  | 5 => .ok .NotEq
  | 6 => .ok .Gt
  | 7 => .ok .GtEq
  | 8 => .ok .Lt
  | 9 => .ok .LtEq
  | 10 => .ok .And
  | 11 => .ok .Or
  | 12 => .ok .Not
  | _ => .error "operator code out of range"

/-- From `dsl.rs`: the free function `binary_expr` — converts the
integer code to an `Operator` and builds the `BinaryOp` node. -/
def binary_expr (l : Expr) (op : Nat) (r : Expr) : Except String Expr :=
  (operatorFromCode op).map fun o => dslBinaryExpr l o r

/-- Modelled from the spec: the runtime type of a dynamically-typed
foreign-language (Python) value arriving at the `lit` boundary
(spec 9: the conversion inspects the value's runtime type). -/
inductive PyValue : Type
  | int (i : Int)
  | bool (b : Bool)
  | float (f : Rat)
  | str (s : String)
  | otherVal
  deriving DecidableEq, Repr

/-- Modelled from the spec: `value.downcast::<PyInt>()` at the foreign
boundary — a runtime type check only, no conversion.  In Python,
`bool` is a subtype of `int`, so the integer downcast also accepts
booleans. -/
def downcastPyInt : PyValue → Bool
  | .int _ => true
  | .bool _ => true
  | _ => false

/-- Modelled from the spec: `int.extract::<i64>()` after a successful
integer downcast — converts the unbounded Python integer to a 64-bit
signed machine integer, returning an overflow error when the value is
outside the i64 range.  A boolean extracts as 1 or 0 and can never
overflow.  (On a value that is not an integer the conversion is never
reached, the downcast check having failed.) -/
def extractI64 : PyValue → Except String Int
  | .int i =>
    if -(2 ^ 63) ≤ i ∧ i < 2 ^ 63 then .ok i
    else .error "OverflowError: int too big to convert"
  | .bool b => .ok (if b then 1 else 0)
  | _ => .error "TypeError"

/-- Modelled from the spec: `value.downcast::<PyFloat>()` — succeeds
exactly on float values; the subsequent `extract::<f64>()` on a float
value cannot fail. -/
def downcastPyFloat : PyValue → Option Rat
  | .float f => some f
  | _ => none

/-- From `dsl.rs`: the free function `lit` — if the integer downcast
succeeds, `extract::<i64>().unwrap()` converts the value, panicking on
an out-of-range integer; else if the float downcast succeeds the float
is extracted; otherwise `panic!("could not convert type")` runs. -/
def lit (value : PyValue) : PanicOr Expr :=
  if downcastPyInt value then
    match extractI64 value with
    | .ok i => .ok (Expr.lit (.int i))
    | .error m => .panicked ("called Result::unwrap() on an Err value: " ++ m)
  else
    match downcastPyFloat value with
    | some f => .ok (Expr.lit (.float f))
    | none => .panicked "could not convert type"

/-!
Theorems settling the claims.
-/

/-- Decidable equality of operator-conversion results, so claims about
the code mapping can be settled by evaluation. -/
instance : DecidableEq (Except String Operator)
  | .ok x, .ok y =>
    if h : x = y then .isTrue (congrArg Except.ok h)
    else .isFalse fun hh => h (Except.ok.inj hh)
  | .error x, .error y =>
    if h : x = y then .isTrue (congrArg Except.error h)
    else .isFalse fun hh => h (Except.error.inj hh)
  | .ok _, .error _ => .isFalse fun hh => Except.noConfusion hh
  | .error _, .ok _ => .isFalse fun hh => Except.noConfusion hh

/-- C1: the claim says `cast` rejects every unrecognized type name with
a typed recoverable error and never panics.  In the code every name
outside the twelve recognized ones reaches `todo!()`, which
unconditionally panics with "not yet implemented": the construction
aborts the process instead of returning a typed error. -/
theorem cast_unknown_type_name_panics (e : Expr) (s : String)
    (h : s ∉ (["u8", "u16", "u32", "u64", "i8", "i16", "i32", "i64",
        "f32", "f64", "bool", "utf8"] : List String)) :
    PyExpr.castBuilder e s = .panicked "not yet implemented" := by
  have hs : str_to_arrow_type s = .panicked "not yet implemented" := by
    unfold str_to_arrow_type
    split <;> simp_all
  simp [PyExpr.castBuilder, hs]

/-- C1 witness: the unrecognized name "date64" is outside the twelve
recognized names, and casting to it panics. -/
theorem cast_unknown_type_name_panics_witness :
    ("date64" : String) ∉ (["u8", "u16", "u32", "u64", "i8", "i16",
        "i32", "i64", "f32", "f64", "bool", "utf8"] : List String) ∧
    PyExpr.castBuilder (Expr.column "x") "date64" =
      .panicked "not yet implemented" :=
  ⟨by decide, cast_unknown_type_name_panics (Expr.column "x") "date64" (by decide)⟩

/-- C2 counterexample: the claim says a string input produces a
string-typed literal node, and any unsupported input type yields a
construction error returned to the caller.  In the code a string input
fails both downcasts and reaches `panic!("could not convert type")`:
the process crashes instead of building a string literal or returning
an error. -/
theorem lit_string_input_panics :
    lit (PyValue.str "abc") = .panicked "could not convert type" := rfl

/-- C2 amended: `lit` accepts exactly the integer inputs representable
in i64 — a boolean is accepted through the integer downcast and
becomes an integer literal — and float inputs; an integer outside the
i64 range panics through the unwrap of the overflow error, and every
other input type (strings included) panics with "could not convert
type".  No failure path returns a typed construction error. -/
theorem lit_amended_cases (v : PyValue) :
    lit v =
      match v with
      | .int i =>
        if -(2 ^ 63) ≤ i ∧ i < 2 ^ 63 then .ok (Expr.lit (.int i))
        else .panicked ("called Result::unwrap() on an Err value: "
          ++ "OverflowError: int too big to convert")
      | .bool b => .ok (Expr.lit (.int (if b then 1 else 0)))
      | .float f => .ok (Expr.lit (.float f))
      | .str _ => .panicked "could not convert type"
      | .otherVal => .panicked "could not convert type" := by
  cases v with
  | int i =>
    simp only [lit, downcastPyInt, extractI64, eq_self_iff_true, if_true]
    by_cases h : -(2 ^ 63) ≤ i ∧ i < 2 ^ 63
    · rw [if_pos h, if_pos h]
    · rw [if_neg h, if_neg h]
  | bool b => cases b <;> rfl
  | float f => rfl
  | str s => rfl
  | otherVal => rfl

/-- C3 counterexample: the claim says `quantile` and `agg_quantile`
fail at construction for q outside [0,1].  At q = 2 both succeed and
build the `Aggregate(Quantile(2))` node — there is no validation and
the return type has no error channel at all. -/
theorem quantile_out_of_range_builds :
    PyExpr.quantile (Expr.column "x") 2 =
      Expr.agg (.Quantile 2) (Expr.column "x") ∧
    PyExpr.agg_quantile (Expr.column "x") 2 =
      Expr.agg (.Quantile 2) (Expr.column "x") :=
  ⟨rfl, rfl⟩

/-- C3 amended: `quantile` and `agg_quantile` perform no range
validation: for every q, inside [0,1] or not, they succeed and build
the `Aggregate(Quantile(q))` node. -/
theorem quantile_no_validation (e : Expr) (q : Rat) :
    PyExpr.quantile e q = Expr.agg (.Quantile q) e ∧
    PyExpr.agg_quantile e q = Expr.agg (.Quantile q) e :=
  ⟨rfl, rfl⟩

/-- C4: `fill_none` succeeds exactly on the five recognized strategy
names, mapping each to the matching `FillNull` strategy, and on any
other string fails at construction with an error message naming the
offending string. -/
theorem fill_none_strategy_spec (e : Expr) (s : String) :
    PyExpr.fill_none e "backward" = .ok (Expr.fillNull e .Backward) ∧
    PyExpr.fill_none e "forward" = .ok (Expr.fillNull e .Forward) ∧
    PyExpr.fill_none e "min" = .ok (Expr.fillNull e .Min) ∧
    PyExpr.fill_none e "max" = .ok (Expr.fillNull e .Max) ∧
    PyExpr.fill_none e "mean" = .ok (Expr.fillNull e .Mean) ∧
    (s ∉ (["backward", "forward", "min", "max", "mean"] : List String) →
      PyExpr.fill_none e s = .error ("Strategy " ++ s ++ " not supported")) := by
  refine ⟨rfl, rfl, rfl, rfl, rfl, fun h => ?_⟩
  unfold PyExpr.fill_none
  split <;> simp_all

/-- C4 witness: the unrecognized strategy "bogus" fails with the error
message naming it. -/
theorem fill_none_strategy_spec_witness :
    ("bogus" : String) ∉ (["backward", "forward", "min", "max", "mean"] : List String) ∧
    PyExpr.fill_none (Expr.column "x") "bogus" =
      .error ("Strategy " ++ "bogus" ++ " not supported") :=
  ⟨by decide,
    (fill_none_strategy_spec (Expr.column "x") "bogus").2.2.2.2.2 (by decide)⟩

/-- C5: the chain `when(p).then(t).otherwise(e)` yields exactly the
`Ternary` node with predicate p, if-true t and if-false e; the
intermediate stages are the distinct builder types `When` and
`WhenThen`, which are not expression nodes. -/
theorem when_then_otherwise_ternary (p t e : Expr) :
    when p = { predicate := p } ∧
    (when p).then t = { predicate := p, then_ := t } ∧
    ((when p).then t).otherwise e = Expr.ternary p t e :=
  ⟨rfl, rfl, rfl⟩

/-- C6: each infix arithmetic protocol method builds exactly the node
that the `binary_expr` constructor builds with the corresponding
operator, and each comparison shorthand builds the `BinaryOp` node
with the matching comparison operator — a single construction path. -/
theorem operators_single_code_path (l r : Expr) :
    pyAdd l r = .ok (dslBinaryExpr l .Plus r) ∧
    pySub l r = .ok (dslBinaryExpr l .Minus r) ∧
    pyMul l r = .ok (dslBinaryExpr l .Multiply r) ∧
    pyTruediv l r = .ok (dslBinaryExpr l .Divide r) ∧
    PyExpr.eq l r = Expr.binaryOp l .Eq r ∧
    PyExpr.neq l r = Expr.binaryOp l .NotEq r ∧
    PyExpr.gt l r = Expr.binaryOp l .Gt r ∧
    PyExpr.gt_eq l r = Expr.binaryOp l .GtEq r ∧
    PyExpr.lt l r = Expr.binaryOp l .Lt r ∧
    PyExpr.lt_eq l r = Expr.binaryOp l .LtEq r :=
  ⟨rfl, rfl, rfl, rfl, rfl, rfl, rfl, rfl, rfl, rfl⟩

/-- C7: constructing a binary expression from an integer operator code
maps every in-range code (0..12) to its unique operator variant —
the mapping is injective on the range — and fails with a defined error
on every out-of-range code, never defaulting silently. -/
theorem binary_expr_code_mapping (l r : Expr) (c : Nat) :
    (c < 13 → ∃ op, operatorFromCode c = .ok op ∧
      binary_expr l c r = .ok (Expr.binaryOp l op r)) ∧
    (13 ≤ c → binary_expr l c r = .error "operator code out of range") ∧
    (∀ c1, c1 < 13 → ∀ c2, c2 < 13 →
      operatorFromCode c1 = operatorFromCode c2 → c1 = c2) := by
  refine ⟨fun h => ?_, fun h => ?_, by decide⟩
  · interval_cases c <;> exact ⟨_, rfl, rfl⟩
  · obtain ⟨k, rfl⟩ : ∃ k, c = k + 13 := ⟨c - 13, by omega⟩
    rfl

/-- C7 witness: code 3 maps to the divide operator and builds the
node; the out-of-range code 99 fails with the defined error. -/
theorem binary_expr_code_mapping_witness :
    (∃ op, operatorFromCode 3 = .ok op ∧
      binary_expr (Expr.column "a") 3 (Expr.column "b") =
        .ok (Expr.binaryOp (Expr.column "a") op (Expr.column "b"))) ∧
    binary_expr (Expr.column "a") 99 (Expr.column "b") =
      .error "operator code out of range" :=
  ⟨(binary_expr_code_mapping (Expr.column "a") (Expr.column "b") 3).1 (by decide),
   (binary_expr_code_mapping (Expr.column "a") (Expr.column "b") 99).2.1 (by decide)⟩

/-- C8: each string-domain builder wraps its stored closure in an
`Apply` node; every stored closure returns the typed type-mismatch
error on a column whose runtime type is not string; and on a string
column `str_contains` produces a boolean column that is true exactly
where the pattern matches as a regular expression, nulls staying
null. -/
theorem str_builders_apply_and_typecheck (e : Expr) (pat val : String) :
    (PyExpr.str_lengths e = Expr.apply e strLengthsFn ∧
     PyExpr.str_replace e pat val = Expr.apply e (strReplaceFn pat val) ∧
     PyExpr.str_replace_all e pat val = Expr.apply e (strReplaceAllFn pat val) ∧
     PyExpr.str_contains e pat = Expr.apply e (strContainsFn pat)) ∧
    (∀ s : Series, s.isStr = false →
      strLengthsFn s = .error .dataTypeMisMatch ∧
      strReplaceFn pat val s = .error .dataTypeMisMatch ∧
      strReplaceAllFn pat val s = .error .dataTypeMisMatch ∧
      strContainsFn pat s = .error .dataTypeMisMatch) ∧
    (∀ vals : List (Option String),
      strContainsFn pat (Series.strS vals) =
        .ok (Series.boolS (vals.map (Option.map fun s => containsMatch pat s)))) := by
  refine ⟨⟨rfl, rfl, rfl, rfl⟩, fun s h => ?_, fun vals => rfl⟩
  cases s with
  | intS v => exact ⟨rfl, rfl, rfl, rfl⟩
  | floatS v => exact ⟨rfl, rfl, rfl, rfl⟩
  | boolS v => exact ⟨rfl, rfl, rfl, rfl⟩
  | strS v => simp [Series.isStr] at h

/-- C8 witness: an integer column is not string-typed and the contains
closure rejects it with the type-mismatch error; on the string column
["axb", "ab", null] the regex "a.b" yields [true, false, null]. -/
theorem str_builders_apply_and_typecheck_witness :
    (Series.intS [some 1]).isStr = false ∧
    strContainsFn "a.b" (Series.intS [some 1]) = .error .dataTypeMisMatch ∧
    strContainsFn "a.b" (Series.strS [some "axb", some "ab", none]) =
      .ok (Series.boolS [some true, some false, none]) := by
  refine ⟨rfl, ?_, ?_⟩
  · exact ((str_builders_apply_and_typecheck (Expr.column "x") "a.b" "").2.1
      (Series.intS [some 1]) rfl).2.2.2
  · have h := (str_builders_apply_and_typecheck (Expr.column "x") "a.b" "").2.2
      [some "axb", some "ab", none]
    rw [h]
    rfl

/-- C10: a boolean input passes the integer downcast first (booleans
are integers at the foreign boundary), extracts as 1 or 0 with no
possible overflow, so `lit` succeeds and builds an integer literal
node — not a boolean literal and not an error. -/
theorem lit_bool_becomes_int_literal (b : Bool) :
    downcastPyInt (PyValue.bool b) = true ∧
    extractI64 (PyValue.bool b) = .ok (if b then 1 else 0) ∧
    lit (PyValue.bool b) = .ok (Expr.lit (.int (if b then 1 else 0))) := by
  cases b <;> exact ⟨rfl, rfl, rfl⟩

end PolarsLazy
